import Mathlib

/-!
# Verification of `cbase2influxdb`

A shallow embedding of `src/cbase2influxdb/cbase2influxdb.py` and proofs about
its CSV-to-time-series pipeline, its configuration validation and its CLI
behaviour.

Modelling conventions:
* Python `float` values are modelled as `Rat`.  The program never performs
  arithmetic on field values — it only parses decimal literals and passes the
  values through — so an exact rational carrier is observationally faithful
  for the decimal literals the API produces.
* Fallible operations (pydantic validation, `float(...)`, datetime parsing)
  are modelled with `Option`: `none` is a raised validation error.
* Python dicts that carry CSV rows, point fields and query parameters are
  modelled as insertion-ordered association lists.
-/

set_option maxHeartbeats 2000000
set_option maxRecDepth 100000

/-- Whitespace characters stripped by Python `float(...)` around a numeric
literal. -/
def isSpaceChar (c : Char) : Bool :=
  c == ' ' || c == '\t' || c == '\n' || c == '\r'

/-- Strip leading and trailing whitespace from a character list. -/
def trimChars (cs : List Char) : List Char :=
  ((cs.dropWhile isSpaceChar).reverse.dropWhile isSpaceChar).reverse

/-- Monadic bind on `Option` as a standalone function.  Definitionally equal
to `Option.bind`; kept out of the code generator's inliner so that long
validation chains compile in reasonable time. -/
@[noinline] def obind {α β : Type} (x : Option α) (f : α → Option β) : Option β :=
  x.bind f

/-- Split a character list on every occurrence of `sep` (like Python
`str.split(sep)`): n separators yield n+1 groups. -/
def splitOnCharL (sep : Char) : List Char → List (List Char)
  | [] => [[]]
  | c :: rest =>
    if c == sep then [] :: splitOnCharL sep rest
    else
      match splitOnCharL sep rest with
      | [] => [[c]]
      | g :: gs => (c :: g) :: gs

/-- Consume a maximal run of decimal digits, extending the accumulator `acc`
positionally; returns the accumulated value, the number of digits consumed and
the remaining characters. -/
def digitsAux : List Char → Nat → Nat → Nat × Nat × List Char
  | [], acc, n => (acc, n, [])
  | c :: rest, acc, n =>
    if c.isDigit then digitsAux rest (10 * acc + (c.toNat - 48)) (n + 1)
    else (acc, n, c :: rest)

/-- Exponent suffix of a Python float literal: an optional sign followed by at
least one digit, consuming the whole remaining text. -/
def parseExpPart (cs : List Char) : Option Int :=
  match cs with
  | '+' :: ds =>
    (match digitsAux ds 0 0 with
     | (v, n, []) => if n == 0 then none else some (v : Int)
     | _ => none)
  | '-' :: ds =>
    (match digitsAux ds 0 0 with
     | (v, n, []) => if n == 0 then none else some (-(v : Int))
     | _ => none)
  | ds =>
    match digitsAux ds 0 0 with
    | (v, n, []) => if n == 0 then none else some (v : Int)
    | _ => none

/-- The rational value of a signed decimal mantissa: sign times the digit
value over `10 ^ fractionLength`. -/
def ratOfParts (sign : Int) (mantVal : Nat) (fpLen : Nat) : Rat :=
  mkRat (sign * (mantVal : Int)) ((10 : Nat) ^ fpLen)

/-- The rational value of a signed decimal mantissa scaled by a signed
decimal exponent, built as a single normalized fraction. -/
def ratValue (sign : Int) (mantVal : Nat) (fpLen : Nat) : Int → Rat
  | Int.ofNat n => mkRat (sign * (mantVal : Int) * (((10 : Nat) ^ n : Nat) : Int)) ((10 : Nat) ^ fpLen)
  | Int.negSucc n => mkRat (sign * (mantVal : Int)) ((10 : Nat) ^ (fpLen + (n + 1)))

/-- Models Python `float(value)` on decimal literals: optional surrounding
whitespace, optional sign, digits with an optional fractional part and an
optional decimal exponent.  Any other text raises, i.e. returns `none`.
(The special names `inf`/`nan` and digit-group underscores, which never occur
in this data, are not modelled.) -/
def parseFloat (s : String) : Option Rat :=
  match (match trimChars s.data with
         | '+' :: r => ((1 : Int), r)
         | '-' :: r => ((-1 : Int), r)
         | r => ((1 : Int), r)) with
  | (sign, body) =>
    match digitsAux body 0 0 with
    | (ipVal, ipLen, rest1) =>
      match (match rest1 with
             | '.' :: r => digitsAux r ipVal 0
             | r => (ipVal, 0, r)) with
      | (mantVal, fpLen, rest2) =>
        if ipLen + fpLen == 0 then none
        else
          match rest2 with
          | [] => some (ratOfParts sign mantVal fpLen)
          | 'e' :: r =>
            (parseExpPart r).map fun ex => ratValue sign mantVal fpLen ex
          | 'E' :: r =>
            (parseExpPart r).map fun ex => ratValue sign mantVal fpLen ex
          | _ => none

/-- Calendar timestamp carried by a record (naive, second precision, which is
what the API's `Time.UTC` column holds). -/
structure DateTime where
  year : Nat
  month : Nat
  day : Nat
  hour : Nat
  minute : Nat
  second : Nat
deriving DecidableEq

/-- Numeric value of a two-digit group, or `none` if either character is not a
decimal digit. -/
def digit2 (a b : Char) : Option Nat :=
  if a.isDigit && b.isDigit then some (10 * (a.toNat - 48) + (b.toNat - 48)) else none

/-- Models the datetime validation pydantic applies to the `Time_UTC` field:
an ISO-8601 `YYYY-MM-DD` date, optionally followed by a `T`- or
space-separated `HH:MM:SS` clock — the shape of the API's `Time.UTC` column.
Malformed text returns `none` (a validation error). -/
def parseDatetime (s : String) : Option DateTime :=
  match s.data with
  | y1 :: y2 :: y3 :: y4 :: '-' :: mo1 :: mo2 :: '-' :: d1 :: d2 :: rest =>
    obind (digit2 y1 y2) fun yh =>
    obind (digit2 y3 y4) fun yl =>
    obind (digit2 mo1 mo2) fun month =>
    obind (digit2 d1 d2) fun day =>
    if 1 ≤ month ∧ month ≤ 12 ∧ 1 ≤ day ∧ day ≤ 31 then
      match rest with
      | [] => some ⟨100 * yh + yl, month, day, 0, 0, 0⟩
      | sep :: h1 :: h2 :: ':' :: mi1 :: mi2 :: ':' :: s1 :: s2 :: [] =>
        if sep == 'T' || sep == ' ' then
          obind (digit2 h1 h2) fun hour =>
          obind (digit2 mi1 mi2) fun minute =>
          obind (digit2 s1 s2) fun second =>
          if hour ≤ 23 ∧ minute ≤ 59 ∧ second ≤ 59 then
            some ⟨100 * yh + yl, month, day, hour, minute, second⟩
          else none
        else none
      | _ => none
    else none
  | _ => none

/-- Accumulator-based worker for `splitLines`. -/
def splitLinesAux : List Char → List Char → List String
  | [], acc => if acc.isEmpty then [] else [String.mk acc.reverse]
  | '\r' :: '\n' :: rest, acc => String.mk acc.reverse :: splitLinesAux rest []
  | '\r' :: rest, acc => String.mk acc.reverse :: splitLinesAux rest []
  | '\n' :: rest, acc => String.mk acc.reverse :: splitLinesAux rest []
  | c :: rest, acc => splitLinesAux rest (c :: acc)

/-- Models Python `str.splitlines()` on the line breaks that occur in this
data (`\n`, `\r\n`, `\r`): no trailing empty line is produced for text ending
in a line break, and the empty string yields no lines. -/
def splitLines (s : String) : List String :=
  splitLinesAux s.data []

/-- Models the `csv` module's splitting of one record line into field values.
The API's payload never contains quoted or escaped fields, so splitting on
commas is the exercised behaviour. -/
def splitCommas (s : String) : List String :=
  (splitOnCharL ',' s.data).map (fun cs => String.mk cs)

/-- One validated CSV row (`class CBaseResponseData(BaseModel)`).  `Time_UTC`
is populated from the aliased column `Time.UTC`; `pv_T` and `pv_eta` are the
two nullable fields. -/
structure CBaseResponseData where
  Time_UTC : DateTime
  temp_avg : Rat
  wind_avg : Rat
  cl_tot : Rat
  cl_low : Rat
  cl_med : Rat
  cl_high : Rat
  prec_amt : Rat
  s_glob : Rat
  s_dif : Rat
  s_dir_hor : Rat
  s_dir : Rat
  s_sw_net : Rat
  solar_angle_vs_panel : Rat
  albedo : Rat
  s_glob_pv : Rat
  s_ground_dif_pv : Rat
  s_dir_pv : Rat
  s_dif_pv : Rat
  pv_po : Rat
  pv_T : Option Rat
  pv_eta : Option Rat
deriving DecidableEq

/-- The `parse_na` before-validator on `pv_T`/`pv_eta`: the literal `NA`
becomes the explicit absent value, anything else must parse as a float. -/
def CBaseResponseData.parse_na (value : String) : Option (Option Rat) :=
  if value == "NA" then some none else (parseFloat value).map some

/-- Models `CBaseResponseData(**row)`: pydantic validation of one CSV row
dict.  Every field is looked up under its populating name (`Time.UTC` for the
aliased timestamp, the attribute name otherwise); a missing key or a value
the field's type rejects is a validation error (`none`).  Extra keys are
ignored, as by pydantic's default config. -/
def CBaseResponseData.validate (row : List (String × String)) : Option CBaseResponseData :=
  obind ((row.lookup "Time.UTC").bind parseDatetime) fun time_utc =>
  obind ((row.lookup "temp_avg").bind parseFloat) fun temp_avg =>
  obind ((row.lookup "wind_avg").bind parseFloat) fun wind_avg =>
  obind ((row.lookup "cl_tot").bind parseFloat) fun cl_tot =>
  obind ((row.lookup "cl_low").bind parseFloat) fun cl_low =>
  obind ((row.lookup "cl_med").bind parseFloat) fun cl_med =>
  obind ((row.lookup "cl_high").bind parseFloat) fun cl_high =>
  obind ((row.lookup "prec_amt").bind parseFloat) fun prec_amt =>
  obind ((row.lookup "s_glob").bind parseFloat) fun s_glob =>
  obind ((row.lookup "s_dif").bind parseFloat) fun s_dif =>
  obind ((row.lookup "s_dir_hor").bind parseFloat) fun s_dir_hor =>
  obind ((row.lookup "s_dir").bind parseFloat) fun s_dir =>
  obind ((row.lookup "s_sw_net").bind parseFloat) fun s_sw_net =>
  obind ((row.lookup "solar_angle_vs_panel").bind parseFloat) fun solar_angle_vs_panel =>
  obind ((row.lookup "albedo").bind parseFloat) fun albedo =>
  obind ((row.lookup "s_glob_pv").bind parseFloat) fun s_glob_pv =>
  obind ((row.lookup "s_ground_dif_pv").bind parseFloat) fun s_ground_dif_pv =>
  obind ((row.lookup "s_dir_pv").bind parseFloat) fun s_dir_pv =>
  obind ((row.lookup "s_dif_pv").bind parseFloat) fun s_dif_pv =>
  obind ((row.lookup "pv_po").bind parseFloat) fun pv_po =>
  obind ((row.lookup "pv_T").bind CBaseResponseData.parse_na) fun pv_T =>
  obind ((row.lookup "pv_eta").bind CBaseResponseData.parse_na) fun pv_eta =>
  some ⟨time_utc, temp_avg, wind_avg, cl_tot, cl_low, cl_med, cl_high, prec_amt,
    s_glob, s_dif, s_dir_hor, s_dir, s_sw_net, solar_angle_vs_panel, albedo,
    s_glob_pv, s_ground_dif_pv, s_dir_pv, s_dif_pv, pv_po, pv_T, pv_eta⟩

/-- Effectful list map over `Option`: the semantics of a Python list
comprehension in which the element expression may raise — the first raising
element aborts the whole comprehension. -/
def optionMapList {α β : Type} (f : α → Option β) : List α → Option (List β)
  | [] => some []
  | a :: l =>
    match f a with
    | none => none
    | some b =>
      match optionMapList f l with
      | none => none
      | some bs => some (b :: bs)

/-- The row dicts `csv.DictReader` yields for a CSV text: the first line is
the header, every following non-blank line is zipped with the header names.
(`DictReader` skips blank lines; a short row leads to the same validation
failure whether the missing key is absent or bound to `None`.) -/
def csvDataRows (csv_text : String) : List (List (String × String)) :=
  match splitLines csv_text with
  | [] => []
  | header :: rest =>
    (rest.filter (fun l => !l.isEmpty)).map
      (fun l => (splitCommas header).zip (splitCommas l))

/-- Models `parse_csv`: `[CBaseResponseData(**row) for row in reader]` over
`csv.DictReader(csv_text.splitlines())` — any row's validation error aborts
the whole parse. -/
def parse_csv (csv_text : String) : Option (List CBaseResponseData) :=
  optionMapList CBaseResponseData.validate (csvDataRows csv_text)

/-- One InfluxDB point (`class InfluxDBPoint(BaseModel)`), its fields map an
insertion-ordered association list. -/
structure InfluxDBPoint where
  measurement : String
  tags : Option (List (String × String))
  fields : List (String × Rat)
  time : DateTime
deriving DecidableEq

/-- Models `data.model_dump(exclude={"Time_UTC"})`: every attribute except the
timestamp, under its attribute name (no serialization alias is declared on
`CBaseResponseData`), in declaration order, nullable attributes carrying their
optional value. -/
def CBaseResponseData.dumpFields (d : CBaseResponseData) : List (String × Option Rat) :=
  [("temp_avg", some d.temp_avg), ("wind_avg", some d.wind_avg),
   ("cl_tot", some d.cl_tot), ("cl_low", some d.cl_low), ("cl_med", some d.cl_med),
   ("cl_high", some d.cl_high), ("prec_amt", some d.prec_amt),
   ("s_glob", some d.s_glob), ("s_dif", some d.s_dif),
   ("s_dir_hor", some d.s_dir_hor), ("s_dir", some d.s_dir),
   ("s_sw_net", some d.s_sw_net),
   ("solar_angle_vs_panel", some d.solar_angle_vs_panel),
   ("albedo", some d.albedo), ("s_glob_pv", some d.s_glob_pv),
   ("s_ground_dif_pv", some d.s_ground_dif_pv), ("s_dir_pv", some d.s_dir_pv),
   ("s_dif_pv", some d.s_dif_pv), ("pv_po", some d.pv_po),
   ("pv_T", d.pv_T), ("pv_eta", d.pv_eta)]

/-- The fields dict of a point:
`{k: v for k, v in data.model_dump(exclude={"Time_UTC"}).items() if v is not None}`. -/
def pointFields (d : CBaseResponseData) : List (String × Rat) :=
  d.dumpFields.filterMap (fun kv => kv.2.map (fun v => (kv.1, v)))

/-- The point built for one validated record inside `csv_to_influxdb_points`. -/
def toPoint (d : CBaseResponseData) : InfluxDBPoint :=
  { measurement := "cbase"
    tags := some [("system", "home")]
    fields := pointFields d
    time := d.Time_UTC }

/-- Models `csv_to_influxdb_points`: parse the CSV text and map every
validated record to its point. -/
def csv_to_influxdb_points (csv_text : String) : Option (List InfluxDBPoint) :=
  (parse_csv csv_text).map (fun l => l.map toPoint)

/-- The four tracking modes (`class CBaseTrackingParam(IntEnum)`). -/
inductive CBaseTrackingParam where
  | FIXED
  | Y_AXIS_TRACKING
  | X_AXIS_TRACKING
  | DUAL_AXIS_TRACKING
deriving DecidableEq

/-- The integer code of each tracking mode, as declared in the `IntEnum`. -/
def CBaseTrackingParam.toNat : CBaseTrackingParam → Nat
  | .FIXED => 0
  | .Y_AXIS_TRACKING => 1
  | .X_AXIS_TRACKING => 2
  | .DUAL_AXIS_TRACKING => 3

/-- Coercion of a configuration integer into the tracking enumeration; any
value other than the four member codes is a pydantic validation error. -/
def CBaseTrackingParam.ofInt (n : Int) : Option CBaseTrackingParam :=
  if n = 0 then some .FIXED
  else if n = 1 then some .Y_AXIS_TRACKING
  else if n = 2 then some .X_AXIS_TRACKING
  else if n = 3 then some .DUAL_AXIS_TRACKING
  else none

/-- The raw `cbase.system` configuration section before validation: which keys
the YAML document supplies, and the scalar supplied for each. -/
structure CBaseSystemParamsInput where
  latitude : Option Rat
  longitude : Option Rat
  slope : Option Int
  azimuth : Option Int
  tracking : Option Int
  panel_output : Option Int
  panel_quantity : Option Int
  inverter_capacity : Option Int
deriving DecidableEq

/-- A validated `CBaseSystemParams` record. -/
structure CBaseSystemParams where
  latitude : Rat
  longitude : Rat
  slope : Int
  azimuth : Int
  tracking : CBaseTrackingParam
  panel_output : Int
  panel_quantity : Int
  inverter_capacity : Int
deriving DecidableEq

/-- Range check used by the field validations below: `none` is a pydantic
constraint violation. -/
def ensure (p : Prop) [Decidable p] : Option Unit :=
  if p then some () else none

/-- Models pydantic validation of `CBaseSystemParams`: each field in
declaration order, with the `Field(ge=..., le=...)` bounds of the source.
`tracking` defaults to `FIXED` and `inverter_capacity` to `0` when their keys
are omitted; every other key is required. -/
def CBaseSystemParams.validate (i : CBaseSystemParamsInput) : Option CBaseSystemParams :=
  obind i.latitude fun latitude =>
  obind (ensure ((-90 : Rat) ≤ latitude ∧ latitude ≤ 90)) fun _ =>
  obind i.longitude fun longitude =>
  obind (ensure ((-90 : Rat) ≤ longitude ∧ longitude ≤ 90)) fun _ =>
  obind i.slope fun slope =>
  obind (ensure ((0 : Int) ≤ slope ∧ slope ≤ 90)) fun _ =>
  obind i.azimuth fun azimuth =>
  obind (ensure ((0 : Int) ≤ azimuth ∧ azimuth ≤ 359)) fun _ =>
  obind (match i.tracking with
         | none => some CBaseTrackingParam.FIXED
         | some n => CBaseTrackingParam.ofInt n) fun tracking =>
  obind i.panel_output fun panel_output =>
  obind (ensure ((0 : Int) ≤ panel_output ∧ panel_output ≤ 1000)) fun _ =>
  obind i.panel_quantity fun panel_quantity =>
  obind (ensure ((0 : Int) ≤ panel_quantity ∧ panel_quantity ≤ 1000)) fun _ =>
  obind (ensure ((0 : Int) ≤ i.inverter_capacity.getD 0 ∧ i.inverter_capacity.getD 0 ≤ 100000)) fun _ =>
  some ⟨latitude, longitude, slope, azimuth, tracking, panel_output, panel_quantity,
    i.inverter_capacity.getD 0⟩

/-- The raw `influxdb` configuration section before validation. -/
structure InfluxDBConfigInput where
  host : Option String
  port : Option Int
  database : Option String
  retention_policy : Option (Option String)
deriving DecidableEq

/-- A validated `InfluxDBConfig` record. -/
structure InfluxDBConfig where
  host : String
  port : Int
  database : String
  retention_policy : Option String
deriving DecidableEq

/-- Models pydantic-v2 validation of `InfluxDBConfig`: `host` is required,
`port` defaults to 8086 and `database` to `cbase`.  `retention_policy` is
annotated `Optional[str]` with no default, which under pydantic v2 (the
version this code imports: `field_validator`, `model_dump`) makes the key
required while allowing an explicit null value. -/
def InfluxDBConfig.validate (i : InfluxDBConfigInput) : Option InfluxDBConfig :=
  obind i.host fun host =>
  obind i.retention_policy fun retention_policy =>
  some ⟨host, i.port.getD 8086, i.database.getD "cbase", retention_policy⟩

/-- A value serialized into the HTTP query-parameter dict. -/
inductive ParamValue where
  | num (q : Rat)
  | int (n : Int)
  | str (s : String)
deriving DecidableEq

/-- Models `cbase_config.system.model_dump(by_alias=True)`: each field under
its `serialization_alias` where one is declared and its attribute name
otherwise, in declaration order; the tracking mode dumps as its integer code. -/
def CBaseSystemParams.model_dump_by_alias (p : CBaseSystemParams) : List (String × ParamValue) :=
  [("lat", ParamValue.num p.latitude), ("lon", ParamValue.num p.longitude),
   ("slope", ParamValue.int p.slope), ("azi", ParamValue.int p.azimuth),
   ("tracking", ParamValue.int (p.tracking.toNat : Int)),
   ("panel_out", ParamValue.int p.panel_output),
   ("panel_qty", ParamValue.int p.panel_quantity),
   ("inv_cap", ParamValue.int p.inverter_capacity)]

/-- The query-parameter dict `collect_data` sends: the aliased dump of the
system parameters, with `apikey` (from the environment) added afterwards. -/
def collect_data_params (p : CBaseSystemParams) (api_key : String) : List (String × ParamValue) :=
  p.model_dump_by_alias ++ [("apikey", ParamValue.str api_key)]

/-- The decimal digit character for `n < 10`. -/
def digitChar (n : Nat) : Char := Char.ofNat (48 + n)

/-- Two-digit zero-padded decimal rendering (calendar components). -/
def pad2 (n : Nat) : String :=
  String.mk [digitChar (n / 10 % 10), digitChar (n % 10)]

/-- Four-digit zero-padded decimal rendering (years). -/
def pad4 (n : Nat) : String :=
  String.mk [digitChar (n / 1000 % 10), digitChar (n / 100 % 10),
             digitChar (n / 10 % 10), digitChar (n % 10)]

/-- Fuelled digit renderer for naturals; 30 digits of fuel cover every value
this program can produce. -/
def natCharsAux : Nat → Nat → List Char → List Char
  | 0, _, acc => acc
  | fuel + 1, n, acc =>
    if n < 10 then digitChar n :: acc
    else natCharsAux fuel (n / 10) (digitChar (n % 10) :: acc)

/-- Decimal rendering of a natural number. -/
def natToDecimal (n : Nat) : String :=
  String.mk (natCharsAux 30 n [])

/-- Fuelled long-division renderer for the fractional digits of `r / b`;
stops when the remainder vanishes.  The field values in this data are finite
decimals, for which 30 digits of fuel are ample. -/
def fracCharsAux : Nat → Nat → Nat → List Char
  | 0, _, _ => []
  | fuel + 1, r, b =>
    if r == 0 then []
    else digitChar (r * 10 / b) :: fracCharsAux fuel (r * 10 % b) b

/-- Models the JSON rendering pydantic v2 gives a Python float: sign, integer
part, a dot and the fractional expansion (`".0"` for whole values), which is
the shortest repr for the finite-decimal values this data carries. -/
def ratJson (q : Rat) : String :=
  (if q.num < 0 then "-" else "") ++
  natToDecimal (q.num.natAbs / q.den) ++ "." ++
  (match fracCharsAux 30 (q.num.natAbs % q.den) q.den with
   | [] => "0"
   | ds => String.mk ds)

/-- The `YYYY-MM-DDTHH:MM:SS` rendering pydantic v2 gives a naive datetime in
JSON. -/
def DateTime.isoString (t : DateTime) : String :=
  pad4 t.year ++ "-" ++ pad2 t.month ++ "-" ++ pad2 t.day ++ "T" ++
  pad2 t.hour ++ ":" ++ pad2 t.minute ++ ":" ++ pad2 t.second

/-- A JSON string literal for text needing no escapes (all strings this
program serializes). -/
def jsonQuote (s : String) : String := "\"" ++ s ++ "\""

/-- A compact JSON object from already-rendered `"key":value` entries, as
pydantic v2 emits. -/
def jsonDict (entries : List String) : String :=
  "\x7b" ++ ",".intercalate entries ++ "\x7d"

/-- Models `p.model_dump_json()` on an `InfluxDBPoint`: the four fields in
declaration order, tags and fields as nested objects, the time as an
ISO-8601 string. -/
def InfluxDBPoint.model_dump_json (p : InfluxDBPoint) : String :=
  jsonDict
    [jsonQuote "measurement" ++ ":" ++ jsonQuote p.measurement,
     jsonQuote "tags" ++ ":" ++
       (match p.tags with
        | none => "null"
        | some tags => jsonDict (tags.map (fun kv => jsonQuote kv.1 ++ ":" ++ jsonQuote kv.2))),
     jsonQuote "fields" ++ ":" ++
       jsonDict (p.fields.map (fun kv => jsonQuote kv.1 ++ ":" ++ ratJson kv.2)),
     jsonQuote "time" ++ ":" ++ jsonQuote p.time.isoString]

/-- The apostrophe character, Python's preferred quote for `repr` of a
string. -/
def squote : String := String.mk [Char.ofNat 39]

/-- Python `repr` of a string containing no apostrophe, backslash or control
character (true of every JSON dump this program prints): the text wrapped in
single quotes. -/
def pyStrRepr (s : String) : String := squote ++ s ++ squote

/-- What Python `print` writes for a list of strings: the bracketed,
comma-separated reprs of the elements. -/
def pyListRepr (xs : List String) : String :=
  "[" ++ ", ".intercalate (xs.map pyStrRepr) ++ "]"

/-- A single JSON array whose elements are the serialized point objects.
This definition follows the specification's words for the file-inspection
output ("prints the resulting points as a JSON array of point objects"); it
is compared against what the code actually prints. -/
def jsonArrayOfPoints (ps : List InfluxDBPoint) : String :=
  "[" ++ ",".intercalate (ps.map InfluxDBPoint.model_dump_json) ++ "]"

/-- Parsed command-line arguments (`class AppArgs(BaseModel)`). -/
structure AppArgs where
  config_file : String
  csv_file : Option String
  dry_run : Bool
deriving DecidableEq

/-- One observable side effect of a program run. -/
inductive Effect where
  | fileRead (path : String)
  | stdoutPrint (text : String)
  | httpGet (params : List (String × ParamValue))
  | dbWrite
deriving DecidableEq

/-- Trace-level model of `main()`.  `readFile` gives each path's contents;
`runTrace` abstracts the effects of the `asyncio.run(run(app_args))` branch
(config read, HTTP fetch, database write or dry-run log), which the csv-file
branch never reaches.  Python truthiness: `if app_args.csv_file:` treats both
an absent and an empty path as false.  In the csv-file branch the program
reads the file, converts it and prints the Python list of the points'
individual JSON dumps; a parse error raises after the read, before any
print. -/
def main_trace (args : AppArgs) (readFile : String → String) (runTrace : List Effect) : List Effect :=
  match args.csv_file with
  | some path =>
    if path.isEmpty then runTrace
    else
      match csv_to_influxdb_points (readFile path) with
      | some ps =>
        [Effect.fileRead path,
         Effect.stdoutPrint (pyListRepr (ps.map InfluxDBPoint.model_dump_json))]
      | none => [Effect.fileRead path]
  | none => runTrace

/-! ## General lemmas about the embedding's combinators -/

theorem optionMapList_spec {α β : Type} (f : α → Option β) :
    ∀ (l : List α) (bs : List β), optionMapList f l = some bs →
      bs.length = l.length ∧
      ∀ (i : Nat) (h1 : i < l.length) (h2 : i < bs.length),
        f (l.get ⟨i, h1⟩) = some (bs.get ⟨i, h2⟩) := by
  intro l
  induction l with
  | nil =>
    intro bs h
    simp only [optionMapList, Option.some.injEq] at h
    subst h
    exact ⟨rfl, fun i h1 _ => absurd h1 (Nat.not_lt_zero i)⟩
  | cons a l ih =>
    intro bs h
    cases hfa : f a with
    | none => simp [optionMapList, hfa] at h
    | some v =>
      cases hml : optionMapList f l with
      | none => simp [optionMapList, hfa, hml] at h
      | some tl =>
        simp only [optionMapList, hfa, hml, Option.some.injEq] at h
        subst h
        obtain ⟨hlen, hget⟩ := ih tl hml
        refine ⟨by simp [hlen], ?_⟩
        intro i h1 h2
        cases i with
        | zero => simpa using hfa
        | succ j =>
          simpa using hget j (Nat.lt_of_succ_lt_succ h1) (Nat.lt_of_succ_lt_succ h2)

theorem optionMapList_eq_none {α β : Type} (f : α → Option β) :
    ∀ (l : List α) (a : α), a ∈ l → f a = none → optionMapList f l = none := by
  intro l
  induction l with
  | nil => intro a ha; cases ha
  | cons x l ih =>
    intro a ha hfa
    rcases List.mem_cons.mp ha with h | h
    · subst h; simp [optionMapList, hfa]
    · cases hfx : f x with
      | none => simp [optionMapList, hfx]
      | some v => simp [optionMapList, hfx, ih a h hfa]

theorem optionMapList_isSome {α β : Type} (f : α → Option β) :
    ∀ (l : List α), (∀ a ∈ l, (f a).isSome) → ∃ bs, optionMapList f l = some bs := by
  intro l
  induction l with
  | nil => intro _; exact ⟨[], rfl⟩
  | cons x l ih =>
    intro h
    obtain ⟨v, hv⟩ := Option.isSome_iff_exists.mp (h x (List.mem_cons_self x l))
    obtain ⟨tl, htl⟩ := ih (fun a ha => h a (List.mem_cons_of_mem x ha))
    exact ⟨v :: tl, by simp [optionMapList, hv, htl]⟩

theorem mem_filterMap_pairs {α β : Type} (l : List (α × Option β)) (k : α) (v : β) :
    (k, v) ∈ l.filterMap (fun kv => kv.2.map (fun x => (kv.1, x))) ↔ (k, some v) ∈ l := by
  induction l with
  | nil => simp
  | cons p l ih =>
    cases p with
    | mk a ob =>
      cases ob with
      | none => simp [ih]
      | some b => simp [ih]

theorem key_mem_map_fst {α β : Type} (l : List (α × β)) (k : α) :
    k ∈ l.map Prod.fst ↔ ∃ v, (k, v) ∈ l := by
  simp only [List.mem_map]
  constructor
  · rintro ⟨⟨a, b⟩, hm, rfl⟩; exact ⟨b, hm⟩
  · rintro ⟨v, hm⟩; exact ⟨(k, v), hm, rfl⟩

/-! ## Lemmas about row validation and the system-parameter validation -/

theorem obind_some_destruct {α β : Type} {x : Option α} {f : α → Option β} {b : β}
    (h : obind x f = some b) : ∃ a, x = some a ∧ f a = some b := by
  cases x with
  | none => simp [obind] at h
  | some a => exact ⟨a, rfl, by simpa [obind] using h⟩

theorem validate_nullable_fields {row : List (String × String)} {d : CBaseResponseData}
    (h : CBaseResponseData.validate row = some d) :
    (∃ raw, row.lookup "pv_T" = some raw ∧ CBaseResponseData.parse_na raw = some d.pv_T) ∧
    (∃ raw, row.lookup "pv_eta" = some raw ∧ CBaseResponseData.parse_na raw = some d.pv_eta) := by
  simp only [CBaseResponseData.validate] at h
  obtain ⟨t, -, h⟩ := obind_some_destruct h
  obtain ⟨a1, -, h⟩ := obind_some_destruct h
  obtain ⟨a2, -, h⟩ := obind_some_destruct h
  obtain ⟨a3, -, h⟩ := obind_some_destruct h
  obtain ⟨a4, -, h⟩ := obind_some_destruct h
  obtain ⟨a5, -, h⟩ := obind_some_destruct h
  obtain ⟨a6, -, h⟩ := obind_some_destruct h
  obtain ⟨a7, -, h⟩ := obind_some_destruct h
  obtain ⟨a8, -, h⟩ := obind_some_destruct h
  obtain ⟨a9, -, h⟩ := obind_some_destruct h
  obtain ⟨a10, -, h⟩ := obind_some_destruct h
  obtain ⟨a11, -, h⟩ := obind_some_destruct h
  obtain ⟨a12, -, h⟩ := obind_some_destruct h
  obtain ⟨a13, -, h⟩ := obind_some_destruct h
  obtain ⟨a14, -, h⟩ := obind_some_destruct h
  obtain ⟨a15, -, h⟩ := obind_some_destruct h
  obtain ⟨a16, -, h⟩ := obind_some_destruct h
  obtain ⟨a17, -, h⟩ := obind_some_destruct h
  obtain ⟨a18, -, h⟩ := obind_some_destruct h
  obtain ⟨a19, -, h⟩ := obind_some_destruct h
  obtain ⟨vT, hvT, h⟩ := obind_some_destruct h
  obtain ⟨vE, hvE, h⟩ := obind_some_destruct h
  have hd := Option.some.inj h
  subst hd
  exact ⟨Option.bind_eq_some.mp hvT, Option.bind_eq_some.mp hvE⟩

theorem obind_some {α β : Type} (a : α) (f : α → Option β) : obind (some a) f = f a := rfl

theorem ensure_pos {p : Prop} [Decidable p] (h : p) : ensure p = some () := by
  simp [ensure, h]

theorem validate_requires {i : CBaseSystemParamsInput} {r : CBaseSystemParams}
    (h : CBaseSystemParams.validate i = some r) :
    i.latitude.isSome ∧ i.longitude.isSome ∧ i.slope.isSome ∧ i.azimuth.isSome ∧
    i.panel_output.isSome ∧ i.panel_quantity.isSome := by
  simp only [CBaseSystemParams.validate] at h
  obtain ⟨lat, hlat, h⟩ := obind_some_destruct h
  obtain ⟨u1, -, h⟩ := obind_some_destruct h
  obtain ⟨lon, hlon, h⟩ := obind_some_destruct h
  obtain ⟨u2, -, h⟩ := obind_some_destruct h
  obtain ⟨slope, hslope, h⟩ := obind_some_destruct h
  obtain ⟨u3, -, h⟩ := obind_some_destruct h
  obtain ⟨azi, hazi, h⟩ := obind_some_destruct h
  obtain ⟨u4, -, h⟩ := obind_some_destruct h
  obtain ⟨tr, -, h⟩ := obind_some_destruct h
  obtain ⟨po, hpo, h⟩ := obind_some_destruct h
  obtain ⟨u5, -, h⟩ := obind_some_destruct h
  obtain ⟨pq, hpq, h⟩ := obind_some_destruct h
  exact ⟨by simp [hlat], by simp [hlon], by simp [hslope], by simp [hazi],
    by simp [hpo], by simp [hpq]⟩

theorem validate_eval (i : CBaseSystemParamsInput) (lat lon : Rat)
    (slope azi po pq : Int) (tr : CBaseTrackingParam)
    (hlat : i.latitude = some lat) (h1 : -90 ≤ lat ∧ lat ≤ 90)
    (hlon : i.longitude = some lon) (h2 : -90 ≤ lon ∧ lon ≤ 90)
    (hslope : i.slope = some slope) (h3 : 0 ≤ slope ∧ slope ≤ 90)
    (hazi : i.azimuth = some azi) (h4 : 0 ≤ azi ∧ azi ≤ 359)
    (htr : (match i.tracking with
            | none => some CBaseTrackingParam.FIXED
            | some n => CBaseTrackingParam.ofInt n) = some tr)
    (hpo : i.panel_output = some po) (h5 : 0 ≤ po ∧ po ≤ 1000)
    (hpq : i.panel_quantity = some pq) (h6 : 0 ≤ pq ∧ pq ≤ 1000)
    (hic : 0 ≤ i.inverter_capacity.getD 0 ∧ i.inverter_capacity.getD 0 ≤ 100000) :
    CBaseSystemParams.validate i =
      some ⟨lat, lon, slope, azi, tr, po, pq, i.inverter_capacity.getD 0⟩ := by
  simp only [CBaseSystemParams.validate, hlat, hlon, hslope, hazi, hpo, hpq, htr,
    obind_some, ensure_pos h1, ensure_pos h2, ensure_pos h3, ensure_pos h4,
    ensure_pos h5, ensure_pos h6, ensure_pos hic]

/-! ## Concrete inputs used by witnesses and counterexamples -/

/-- The API's CSV header row. -/
def exHeader : String :=
  "Time.UTC,temp_avg,wind_avg,cl_tot,cl_low,cl_med,cl_high,prec_amt,s_glob,s_dif,s_dir_hor,s_dir,s_sw_net,solar_angle_vs_panel,albedo,s_glob_pv,s_ground_dif_pv,s_dir_pv,s_dif_pv,pv_po,pv_T,pv_eta"

/-- A well-formed data row with `pv_T = NA` and `pv_eta = 3.2`. -/
def exRow1 : String :=
  "2024-01-02T03:04:05,1.5,2,0.1,0.2,0.3,0.4,0,100,10,80,90,95,45,0.2,120,5,85,12,300,NA,3.2"

/-- A well-formed data row with `pv_T = 7.5` and `pv_eta = NA`. -/
def exRow2 : String :=
  "2024-01-02T04:04:05,1.5,2,0.1,0.2,0.3,0.4,0,100,10,80,90,95,45,0.2,120,5,85,12,300,7.5,NA"

/-- A data row whose required field `temp_avg` holds non-numeric text. -/
def exBadRow1 : String :=
  "2024-01-02T03:04:05,abc,2,0.1,0.2,0.3,0.4,0,100,10,80,90,95,45,0.2,120,5,85,12,300,NA,3.2"

/-- A one-row CSV payload. -/
def exCsv : String := exHeader ++ "\n" ++ exRow1 ++ "\n"

/-- A two-row CSV payload. -/
def exCsv2 : String := exHeader ++ "\n" ++ exRow1 ++ "\n" ++ exRow2 ++ "\n"

/-- A CSV payload whose only data row is malformed. -/
def exBadCsv : String := exHeader ++ "\n" ++ exBadRow1 ++ "\n"

/-- The records parsed from `exCsv`. -/
def exRecords : List CBaseResponseData := (parse_csv exCsv).getD []

/-- The records parsed from `exCsv2`. -/
def exRecords2 : List CBaseResponseData := (parse_csv exCsv2).getD []

/-- The points produced from `exCsv`. -/
def exPoints : List InfluxDBPoint := (csv_to_influxdb_points exCsv).getD []

/-- The row dict of `exBadCsv`'s single data row. -/
def exBadRow : List (String × String) := (csvDataRows exBadCsv).headD []

/-! ## The claims -/

/-- C3: for any CSV input in which at least one row is malformed (its
validation as a `CBaseResponseData` fails — a non-numeric required field, a
nullable field that is neither `NA` nor a numeral, or a malformed timestamp),
parsing the whole input fails: `parse_csv` returns an error and no partial
record or point list is produced (abort-all, not skip-and-continue). -/
theorem c3_malformed_row_aborts (c : String) (row : List (String × String))
    (hrow : row ∈ csvDataRows c) (hbad : CBaseResponseData.validate row = none) :
    parse_csv c = none ∧ csv_to_influxdb_points c = none := by
  have h : parse_csv c = none :=
    optionMapList_eq_none CBaseResponseData.validate (csvDataRows c) row hrow hbad
  exact ⟨h, by simp [csv_to_influxdb_points, h]⟩

/-- Witness for C3: a concrete CSV whose single data row carries non-numeric
text in the required field `temp_avg`; the whole parse fails. -/
theorem c3_witness :
    (exBadRow ∈ csvDataRows exBadCsv ∧ CBaseResponseData.validate exBadRow = none) ∧
    parse_csv exBadCsv = none :=
  ⟨⟨by decide, by decide⟩,
   (c3_malformed_row_aborts exBadCsv exBadRow (by decide) (by decide)).1⟩

/-- C4: for CSV text whose data rows all validate, the parser succeeds and
yields exactly one record per data row, in input row order; and any input
with no data rows (empty, or a header only) yields the empty record list, not
an error. -/
theorem c4_parser_yields_all_rows (c : String)
    (h : ∀ row ∈ csvDataRows c, (CBaseResponseData.validate row).isSome) :
    (∃ rs, parse_csv c = some rs ∧ rs.length = (csvDataRows c).length ∧
      ∀ (i : Nat) (h1 : i < (csvDataRows c).length) (h2 : i < rs.length),
        CBaseResponseData.validate ((csvDataRows c).get ⟨i, h1⟩) = some (rs.get ⟨i, h2⟩)) ∧
    ((splitLines c).length ≤ 1 → parse_csv c = some []) := by
  constructor
  · obtain ⟨rs, hrs⟩ := optionMapList_isSome CBaseResponseData.validate (csvDataRows c) h
    obtain ⟨hlen, hget⟩ := optionMapList_spec CBaseResponseData.validate (csvDataRows c) rs hrs
    exact ⟨rs, hrs, hlen, hget⟩
  · intro hlen
    cases hsl : splitLines c with
    | nil => simp [parse_csv, csvDataRows, hsl, optionMapList]
    | cons hd tl =>
      cases tl with
      | nil => simp [parse_csv, csvDataRows, hsl, optionMapList]
      | cons a b => rw [hsl] at hlen; simp at hlen

/-- Witness for C4: the two-row CSV validates row by row, so the parser
returns exactly two records in order; and the header-only prefix parses to
the empty list. -/
theorem c4_witness :
    (∀ row ∈ csvDataRows exCsv2, (CBaseResponseData.validate row).isSome) ∧
    ((∃ rs, parse_csv exCsv2 = some rs ∧ rs.length = (csvDataRows exCsv2).length ∧
      ∀ (i : Nat) (h1 : i < (csvDataRows exCsv2).length) (h2 : i < rs.length),
        CBaseResponseData.validate ((csvDataRows exCsv2).get ⟨i, h1⟩) = some (rs.get ⟨i, h2⟩)) ∧
     ((splitLines exCsv2).length ≤ 1 → parse_csv exCsv2 = some [])) ∧
    (csvDataRows exCsv2).length = 2 ∧ parse_csv (exHeader ++ "\n") = some [] :=
  ⟨by decide, c4_parser_yields_all_rows exCsv2 (by decide), by decide, by decide⟩

theorem points_eq_map {c : String} {rs : List CBaseResponseData} {ps : List InfluxDBPoint}
    (hp : parse_csv c = some rs) (hq : csv_to_influxdb_points c = some ps) :
    ps = rs.map toPoint := by
  simp only [csv_to_influxdb_points, hp, Option.map_some', Option.some.injEq] at hq
  exact hq.symm

theorem pv_T_mem_pointFields (d : CBaseResponseData) (q : Rat) :
    ("pv_T", q) ∈ pointFields d ↔ d.pv_T = some q := by
  rw [pointFields, mem_filterMap_pairs]
  simp [CBaseResponseData.dumpFields, eq_comm]

theorem pv_eta_mem_pointFields (d : CBaseResponseData) (q : Rat) :
    ("pv_eta", q) ∈ pointFields d ↔ d.pv_eta = some q := by
  rw [pointFields, mem_filterMap_pairs]
  simp [CBaseResponseData.dumpFields, eq_comm]

/-- C1: for every validated record and each nullable field (`pv_T`,
`pv_eta`): if that field's raw CSV value is the literal `NA`, the resulting
point's fields map omits the key entirely; if it is a valid numeral, the
fields map binds the key to the parsed float value.  Hence no point's fields
map contains a key whose source value was the absent-value marker. -/
theorem c1_nullable_fields (c : String) (rs : List CBaseResponseData)
    (ps : List InfluxDBPoint) (i : Nat) (rawT rawE : String)
    (hp : parse_csv c = some rs) (hq : csv_to_influxdb_points c = some ps)
    (hi : i < (csvDataRows c).length) (hips : i < ps.length)
    (hT : ((csvDataRows c).get ⟨i, hi⟩).lookup "pv_T" = some rawT)
    (hE : ((csvDataRows c).get ⟨i, hi⟩).lookup "pv_eta" = some rawE) :
    ((rawT = "NA" → "pv_T" ∉ ((ps.get ⟨i, hips⟩).fields.map Prod.fst)) ∧
      (∀ q, parseFloat rawT = some q → ("pv_T", q) ∈ (ps.get ⟨i, hips⟩).fields)) ∧
    ((rawE = "NA" → "pv_eta" ∉ ((ps.get ⟨i, hips⟩).fields.map Prod.fst)) ∧
      (∀ q, parseFloat rawE = some q → ("pv_eta", q) ∈ (ps.get ⟨i, hips⟩).fields)) := by
  have hmap := points_eq_map hp hq
  obtain ⟨hlen, hget⟩ := optionMapList_spec CBaseResponseData.validate (csvDataRows c) rs hp
  have hirs : i < rs.length := by rw [hlen]; exact hi
  have hval := hget i hi hirs
  obtain ⟨⟨rT, hrT, hpT⟩, ⟨rE, hrE, hpE⟩⟩ := validate_nullable_fields hval
  rw [hT] at hrT
  rw [hE] at hrE
  obtain rfl : rawT = rT := Option.some.inj hrT
  obtain rfl : rawE = rE := Option.some.inj hrE
  have hpoint : ps.get ⟨i, hips⟩ = toPoint (rs.get ⟨i, hirs⟩) := by
    subst hmap
    simp
  rw [hpoint]
  constructor
  · constructor
    · intro hna
      subst hna
      have hnone : (rs.get ⟨i, hirs⟩).pv_T = none := by
        simpa [CBaseResponseData.parse_na] using hpT.symm
      intro hmem
      obtain ⟨q, hqmem⟩ := (key_mem_map_fst _ _).mp hmem
      rw [show (toPoint (rs.get ⟨i, hirs⟩)).fields = pointFields (rs.get ⟨i, hirs⟩) from rfl,
        pv_T_mem_pointFields] at hqmem
      rw [hnone] at hqmem
      cases hqmem
    · intro q hqparse
      by_cases hna : rawT = "NA"
      · rw [hna] at hqparse
        have : parseFloat "NA" = none := by decide
        rw [this] at hqparse
        cases hqparse
      · have hsome : (rs.get ⟨i, hirs⟩).pv_T = some q := by
          rw [CBaseResponseData.parse_na, if_neg (by simpa using hna), hqparse] at hpT
          simpa using hpT.symm
        exact (pv_T_mem_pointFields _ q).mpr hsome
  · constructor
    · intro hna
      subst hna
      have hnone : (rs.get ⟨i, hirs⟩).pv_eta = none := by
        simpa [CBaseResponseData.parse_na] using hpE.symm
      intro hmem
      obtain ⟨q, hqmem⟩ := (key_mem_map_fst _ _).mp hmem
      rw [show (toPoint (rs.get ⟨i, hirs⟩)).fields = pointFields (rs.get ⟨i, hirs⟩) from rfl,
        pv_eta_mem_pointFields] at hqmem
      rw [hnone] at hqmem
      cases hqmem
    · intro q hqparse
      by_cases hna : rawE = "NA"
      · rw [hna] at hqparse
        have : parseFloat "NA" = none := by decide
        rw [this] at hqparse
        cases hqparse
      · have hsome : (rs.get ⟨i, hirs⟩).pv_eta = some q := by
          rw [CBaseResponseData.parse_na, if_neg (by simpa using hna), hqparse] at hpE
          simpa using hpE.symm
        exact (pv_eta_mem_pointFields _ q).mpr hsome

/-- Witness for C1: in the one-row CSV the raw `pv_T` value is `NA` and the
raw `pv_eta` value is `3.2`; the produced point omits the `pv_T` key and
binds `pv_eta` to 16/5. -/
theorem c1_witness :
    (parse_csv exCsv = some exRecords ∧ csv_to_influxdb_points exCsv = some exPoints ∧
      ((csvDataRows exCsv).get ⟨0, by decide⟩).lookup "pv_T" = some "NA" ∧
      ((csvDataRows exCsv).get ⟨0, by decide⟩).lookup "pv_eta" = some "3.2") ∧
    "pv_T" ∉ ((exPoints.get ⟨0, by decide⟩).fields.map Prod.fst) ∧
    ("pv_eta", mkRat 16 5) ∈ (exPoints.get ⟨0, by decide⟩).fields := by
  have h := c1_nullable_fields exCsv exRecords exPoints 0 "NA" "3.2" (by decide) (by decide)
    (by decide) (by decide) (by decide) (by decide)
  exact ⟨⟨by decide, by decide, by decide, by decide⟩, h.1.1 rfl, h.2.2 (mkRat 16 5) (by decide)⟩

/-- C2: every point produced from a validated record has measurement name
`cbase`, tag set `{"system": "home"}`, time equal to the record's `Time.UTC`
timestamp, and a fields map binding exactly the non-absent remaining
attributes of the record under their names (no non-timestamp attribute
declares an external wire name), excluding the timestamp attribute itself. -/
theorem c2_point_shape (c : String) (rs : List CBaseResponseData)
    (hp : parse_csv c = some rs) :
    ∃ ps, csv_to_influxdb_points c = some ps ∧ ps.length = rs.length ∧
      ∀ (i : Nat) (h1 : i < ps.length) (h2 : i < rs.length),
        (ps.get ⟨i, h1⟩).measurement = "cbase" ∧
        (ps.get ⟨i, h1⟩).tags = some [("system", "home")] ∧
        (ps.get ⟨i, h1⟩).time = (rs.get ⟨i, h2⟩).Time_UTC ∧
        (∀ (k : String) (q : Rat),
          (k, q) ∈ (ps.get ⟨i, h1⟩).fields ↔ (k, some q) ∈ (rs.get ⟨i, h2⟩).dumpFields) := by
  refine ⟨rs.map toPoint, by simp [csv_to_influxdb_points, hp], by simp, ?_⟩
  intro i h1 h2
  have hpoint : (rs.map toPoint).get ⟨i, h1⟩ = toPoint (rs.get ⟨i, h2⟩) := by simp
  rw [hpoint]
  exact ⟨rfl, rfl, rfl, fun k q => mem_filterMap_pairs (rs.get ⟨i, h2⟩).dumpFields k q⟩

/-- Witness for C2 on the one-row CSV. -/
theorem c2_witness :
    parse_csv exCsv = some exRecords ∧
    (∃ ps, csv_to_influxdb_points exCsv = some ps ∧ ps.length = exRecords.length ∧
      ∀ (i : Nat) (h1 : i < ps.length) (h2 : i < exRecords.length),
        (ps.get ⟨i, h1⟩).measurement = "cbase" ∧
        (ps.get ⟨i, h1⟩).tags = some [("system", "home")] ∧
        (ps.get ⟨i, h1⟩).time = (exRecords.get ⟨i, h2⟩).Time_UTC ∧
        (∀ (k : String) (q : Rat),
          (k, q) ∈ (ps.get ⟨i, h1⟩).fields ↔ (k, some q) ∈ (exRecords.get ⟨i, h2⟩).dumpFields)) :=
  ⟨by decide, c2_point_shape exCsv exRecords (by decide)⟩

theorem obind_none {α β : Type} (f : α → Option β) : obind none f = none := rfl

theorem ensure_neg {p : Prop} [Decidable p] (h : ¬p) : ensure p = none := by
  simp [ensure, h]

theorem validate_rejects_panel_output (i : CBaseSystemParamsInput) (lat lon : Rat)
    (slope azi po : Int) (tr : CBaseTrackingParam)
    (hlat : i.latitude = some lat) (h1 : -90 ≤ lat ∧ lat ≤ 90)
    (hlon : i.longitude = some lon) (h2 : -90 ≤ lon ∧ lon ≤ 90)
    (hslope : i.slope = some slope) (h3 : 0 ≤ slope ∧ slope ≤ 90)
    (hazi : i.azimuth = some azi) (h4 : 0 ≤ azi ∧ azi ≤ 359)
    (htr : (match i.tracking with
            | none => some CBaseTrackingParam.FIXED
            | some n => CBaseTrackingParam.ofInt n) = some tr)
    (hpo : i.panel_output = some po) (hbad : ¬(0 ≤ po ∧ po ≤ 1000)) :
    CBaseSystemParams.validate i = none := by
  simp only [CBaseSystemParams.validate, hlat, hlon, hslope, hazi, htr, hpo, obind_some,
    ensure_pos h1, ensure_pos h2, ensure_pos h3, ensure_pos h4, ensure_neg hbad, obind_none]

theorem validate_rejects_panel_quantity (i : CBaseSystemParamsInput) (lat lon : Rat)
    (slope azi po pq : Int) (tr : CBaseTrackingParam)
    (hlat : i.latitude = some lat) (h1 : -90 ≤ lat ∧ lat ≤ 90)
    (hlon : i.longitude = some lon) (h2 : -90 ≤ lon ∧ lon ≤ 90)
    (hslope : i.slope = some slope) (h3 : 0 ≤ slope ∧ slope ≤ 90)
    (hazi : i.azimuth = some azi) (h4 : 0 ≤ azi ∧ azi ≤ 359)
    (htr : (match i.tracking with
            | none => some CBaseTrackingParam.FIXED
            | some n => CBaseTrackingParam.ofInt n) = some tr)
    (hpo : i.panel_output = some po) (h5 : 0 ≤ po ∧ po ≤ 1000)
    (hpq : i.panel_quantity = some pq) (hbad : ¬(0 ≤ pq ∧ pq ≤ 1000)) :
    CBaseSystemParams.validate i = none := by
  simp only [CBaseSystemParams.validate, hlat, hlon, hslope, hazi, htr, hpo, hpq, obind_some,
    ensure_pos h1, ensure_pos h2, ensure_pos h3, ensure_pos h4, ensure_pos h5,
    ensure_neg hbad, obind_none]

theorem validate_rejects_inverter_capacity (i : CBaseSystemParamsInput) (lat lon : Rat)
    (slope azi po pq : Int) (tr : CBaseTrackingParam)
    (hlat : i.latitude = some lat) (h1 : -90 ≤ lat ∧ lat ≤ 90)
    (hlon : i.longitude = some lon) (h2 : -90 ≤ lon ∧ lon ≤ 90)
    (hslope : i.slope = some slope) (h3 : 0 ≤ slope ∧ slope ≤ 90)
    (hazi : i.azimuth = some azi) (h4 : 0 ≤ azi ∧ azi ≤ 359)
    (htr : (match i.tracking with
            | none => some CBaseTrackingParam.FIXED
            | some n => CBaseTrackingParam.ofInt n) = some tr)
    (hpo : i.panel_output = some po) (h5 : 0 ≤ po ∧ po ≤ 1000)
    (hpq : i.panel_quantity = some pq) (h6 : 0 ≤ pq ∧ pq ≤ 1000)
    (hbad : ¬(0 ≤ i.inverter_capacity.getD 0 ∧ i.inverter_capacity.getD 0 ≤ 100000)) :
    CBaseSystemParams.validate i = none := by
  simp only [CBaseSystemParams.validate, hlat, hlon, hslope, hazi, htr, hpo, hpq, obind_some,
    ensure_pos h1, ensure_pos h2, ensure_pos h3, ensure_pos h4, ensure_pos h5, ensure_pos h6,
    ensure_neg hbad, obind_none]

/-- A system-parameter section with every key present; longitude 100 is a
legitimate east longitude but lies outside the code's declared bound. -/
def c5Input : CBaseSystemParamsInput :=
  { latitude := some 60, longitude := some 100, slope := some 30, azimuth := some 180,
    tracking := some 0, panel_output := some 300, panel_quantity := some 10,
    inverter_capacity := some 3000 }

/-- C5 (code bug): the source declares `longitude: float = Field(ge=-90,
le=90, ...)` — the latitude bound copied onto longitude — so a configuration
with longitude 100, although 100 lies inside the valid geographic range
[-180, 180] the specification prescribes, is rejected at load time; the same
configuration with a longitude inside [-90, 90] validates. -/
theorem c5_longitude_bound :
    CBaseSystemParams.validate c5Input = none ∧
    ((-180 : Rat) ≤ 100 ∧ (100 : Rat) ≤ 180) ∧
    CBaseSystemParams.validate { c5Input with longitude := some 25 } =
      some ⟨60, 25, 30, 180, CBaseTrackingParam.FIXED, 300, 10, 3000⟩ := by
  exact ⟨by decide, by decide, by decide⟩

/-- An influxdb section supplying only the host. -/
def c6HostOnly : InfluxDBConfigInput :=
  { host := some "influx.example", port := none, database := none, retention_policy := none }

/-- C6 counterexample: an influxdb section supplying only the host does not
load — `retention_policy`, annotated `Optional[str]` with no default, is a
required key under pydantic v2, so its omission is a validation error. -/
theorem c6_counterexample : InfluxDBConfig.validate c6HostOnly = none := by decide

/-- C6 (amended): an influxdb section supplying the host and a
`retention_policy` key (whose value may be an explicit null) loads, with the
port defaulting to 8086 and the database name to `cbase`; supplying only the
host fails because the `retention_policy` key itself is required. -/
theorem c6_defaults (h : String) (rp : Option String) :
    InfluxDBConfig.validate
        { host := some h, port := none, database := none, retention_policy := some rp } =
      some { host := h, port := 8086, database := "cbase", retention_policy := rp } ∧
    InfluxDBConfig.validate
        { host := some h, port := none, database := none, retention_policy := none } = none :=
  ⟨rfl, rfl⟩

/-- A system-parameter section that is valid except for a panel output of
1001, a non-negative value above the declared maximum. -/
def c7Input : CBaseSystemParamsInput :=
  { latitude := some 60, longitude := some 25, slope := some 30, azimuth := some 180,
    tracking := some 0, panel_output := some 1001, panel_quantity := some 10,
    inverter_capacity := some 3000 }

/-- C7 counterexample: 1001 is non-negative, yet a configuration with panel
output 1001 is rejected — the declared range is `ge=0, le=1000`, not mere
non-negativity. -/
theorem c7_counterexample :
    (0 : Int) ≤ 1001 ∧ CBaseSystemParams.validate c7Input = none := by
  exact ⟨by decide, by decide⟩

/-- C7 (amended): panel output, panel quantity and inverter capacity accept
exactly the values inside their declared ranges — non-negative and at most
1000, 1000 and 100000 respectively.  In-range values load, negative values
are rejected, and so are non-negative values above the maxima. -/
theorem c7_bounds (po pq ic : Int)
    (h5 : 0 ≤ po ∧ po ≤ 1000) (h6 : 0 ≤ pq ∧ pq ≤ 1000) (h7 : 0 ≤ ic ∧ ic ≤ 100000) :
    CBaseSystemParams.validate
        { latitude := some 60, longitude := some 25, slope := some 30, azimuth := some 180,
          tracking := some 0, panel_output := some po, panel_quantity := some pq,
          inverter_capacity := some ic } =
      some ⟨60, 25, 30, 180, CBaseTrackingParam.FIXED, po, pq, ic⟩ ∧
    (∀ x : Int, x < 0 ∨ 1000 < x →
      CBaseSystemParams.validate
          { latitude := some 60, longitude := some 25, slope := some 30, azimuth := some 180,
            tracking := some 0, panel_output := some x, panel_quantity := some pq,
            inverter_capacity := some ic } = none) ∧
    (∀ x : Int, x < 0 ∨ 1000 < x →
      CBaseSystemParams.validate
          { latitude := some 60, longitude := some 25, slope := some 30, azimuth := some 180,
            tracking := some 0, panel_output := some po, panel_quantity := some x,
            inverter_capacity := some ic } = none) ∧
    (∀ x : Int, x < 0 ∨ 100000 < x →
      CBaseSystemParams.validate
          { latitude := some 60, longitude := some 25, slope := some 30, azimuth := some 180,
            tracking := some 0, panel_output := some po, panel_quantity := some pq,
            inverter_capacity := some x } = none) := by
  refine ⟨?_, ?_, ?_, ?_⟩
  · exact validate_eval _ 60 25 30 180 po pq CBaseTrackingParam.FIXED
      rfl (by constructor <;> decide) rfl (by constructor <;> decide)
      rfl (by constructor <;> decide) rfl (by constructor <;> decide)
      rfl rfl h5 rfl h6 h7
  · intro x hx
    exact validate_rejects_panel_output _ 60 25 30 180 x CBaseTrackingParam.FIXED
      rfl (by constructor <;> decide) rfl (by constructor <;> decide)
      rfl (by constructor <;> decide) rfl (by constructor <;> decide)
      rfl rfl (by rcases hx with h | h <;> omega)
  · intro x hx
    exact validate_rejects_panel_quantity _ 60 25 30 180 po x CBaseTrackingParam.FIXED
      rfl (by constructor <;> decide) rfl (by constructor <;> decide)
      rfl (by constructor <;> decide) rfl (by constructor <;> decide)
      rfl rfl h5 rfl (by rcases hx with h | h <;> omega)
  · intro x hx
    exact validate_rejects_inverter_capacity _ 60 25 30 180 po pq CBaseTrackingParam.FIXED
      rfl (by constructor <;> decide) rfl (by constructor <;> decide)
      rfl (by constructor <;> decide) rfl (by constructor <;> decide)
      rfl rfl h5 rfl h6
      (by show ¬((0 : Int) ≤ x ∧ x ≤ 100000); rcases hx with h | h <;> omega)

/-- Witness for C7 at panel output 300, panel quantity 10 and inverter
capacity 3000. -/
theorem c7_witness :
    ((0 : Int) ≤ 300 ∧ (300 : Int) ≤ 1000) ∧ ((0 : Int) ≤ 10 ∧ (10 : Int) ≤ 1000) ∧
    ((0 : Int) ≤ 3000 ∧ (3000 : Int) ≤ 100000) ∧
    CBaseSystemParams.validate
        { latitude := some 60, longitude := some 25, slope := some 30, azimuth := some 180,
          tracking := some 0, panel_output := some 300, panel_quantity := some 10,
          inverter_capacity := some 3000 } =
      some ⟨60, 25, 30, 180, CBaseTrackingParam.FIXED, 300, 10, 3000⟩ ∧
    CBaseSystemParams.validate
        { latitude := some 60, longitude := some 25, slope := some 30, azimuth := some 180,
          tracking := some 0, panel_output := some (-1), panel_quantity := some 10,
          inverter_capacity := some 3000 } = none :=
  ⟨by decide, by decide, by decide,
   (c7_bounds 300 10 3000 (by decide) (by decide) (by decide)).1,
   (c7_bounds 300 10 3000 (by decide) (by decide) (by decide)).2.1 (-1) (Or.inl (by decide))⟩

/-- C10: in the system-parameter section, tracking mode and inverter capacity
are the only keys that may be omitted — an omitted tracking mode defaults to
the fixed variant (integer code 0) and an omitted inverter capacity defaults
to 0 — whereas omitting latitude, longitude, slope, azimuth, panel output or
panel quantity makes configuration loading fail. -/
theorem c10_optional_fields (lat lon : Rat) (slope azi po pq : Int)
    (h1 : -90 ≤ lat ∧ lat ≤ 90) (h2 : -90 ≤ lon ∧ lon ≤ 90)
    (h3 : 0 ≤ slope ∧ slope ≤ 90) (h4 : 0 ≤ azi ∧ azi ≤ 359)
    (h5 : 0 ≤ po ∧ po ≤ 1000) (h6 : 0 ≤ pq ∧ pq ≤ 1000) :
    CBaseSystemParams.validate
        { latitude := some lat, longitude := some lon, slope := some slope,
          azimuth := some azi, tracking := none, panel_output := some po,
          panel_quantity := some pq, inverter_capacity := none } =
      some ⟨lat, lon, slope, azi, CBaseTrackingParam.FIXED, po, pq, 0⟩ ∧
    (∀ i : CBaseSystemParamsInput, i.latitude = none → CBaseSystemParams.validate i = none) ∧
    (∀ i : CBaseSystemParamsInput, i.longitude = none → CBaseSystemParams.validate i = none) ∧
    (∀ i : CBaseSystemParamsInput, i.slope = none → CBaseSystemParams.validate i = none) ∧
    (∀ i : CBaseSystemParamsInput, i.azimuth = none → CBaseSystemParams.validate i = none) ∧
    (∀ i : CBaseSystemParamsInput, i.panel_output = none → CBaseSystemParams.validate i = none) ∧
    (∀ i : CBaseSystemParamsInput, i.panel_quantity = none → CBaseSystemParams.validate i = none) := by
  refine ⟨?_, ?_, ?_, ?_, ?_, ?_, ?_⟩
  · exact validate_eval _ lat lon slope azi po pq CBaseTrackingParam.FIXED
      rfl h1 rfl h2 rfl h3 rfl h4 rfl rfl h5 rfl h6
      ((by decide : (0 : Int) ≤ 0 ∧ (0 : Int) ≤ 100000))
  · intro i hi
    cases hv : CBaseSystemParams.validate i with
    | none => rfl
    | some r => have h := (validate_requires hv).1; rw [hi] at h; simp at h
  · intro i hi
    cases hv : CBaseSystemParams.validate i with
    | none => rfl
    | some r => have h := (validate_requires hv).2.1; rw [hi] at h; simp at h
  · intro i hi
    cases hv : CBaseSystemParams.validate i with
    | none => rfl
    | some r => have h := (validate_requires hv).2.2.1; rw [hi] at h; simp at h
  · intro i hi
    cases hv : CBaseSystemParams.validate i with
    | none => rfl
    | some r => have h := (validate_requires hv).2.2.2.1; rw [hi] at h; simp at h
  · intro i hi
    cases hv : CBaseSystemParams.validate i with
    | none => rfl
    | some r => have h := (validate_requires hv).2.2.2.2.1; rw [hi] at h; simp at h
  · intro i hi
    cases hv : CBaseSystemParams.validate i with
    | none => rfl
    | some r => have h := (validate_requires hv).2.2.2.2.2; rw [hi] at h; simp at h

/-- Witness for C10 at concrete in-range values: omitting tracking and
inverter capacity yields the fixed mode and capacity 0; omitting latitude
fails. -/
theorem c10_witness :
    (((-90 : Rat) ≤ 60 ∧ (60 : Rat) ≤ 90) ∧ ((-90 : Rat) ≤ 25 ∧ (25 : Rat) ≤ 90) ∧
      ((0 : Int) ≤ 30 ∧ (30 : Int) ≤ 90) ∧ ((0 : Int) ≤ 180 ∧ (180 : Int) ≤ 359) ∧
      ((0 : Int) ≤ 300 ∧ (300 : Int) ≤ 1000) ∧ ((0 : Int) ≤ 10 ∧ (10 : Int) ≤ 1000)) ∧
    CBaseSystemParams.validate
        { latitude := some 60, longitude := some 25, slope := some 30,
          azimuth := some 180, tracking := none, panel_output := some 300,
          panel_quantity := some 10, inverter_capacity := none } =
      some ⟨60, 25, 30, 180, CBaseTrackingParam.FIXED, 300, 10, 0⟩ ∧
    CBaseSystemParams.validate
        { latitude := none, longitude := some 25, slope := some 30,
          azimuth := some 180, tracking := none, panel_output := some 300,
          panel_quantity := some 10, inverter_capacity := none } = none := by
  have h := c10_optional_fields 60 25 30 180 300 10 (by decide) (by decide)
    (by decide) (by decide) (by decide) (by decide)
  exact ⟨⟨by decide, by decide, by decide, by decide, by decide, by decide⟩,
    h.1, h.2.1 _ rfl⟩

/-- C9: the query-parameter dict serialized for the HTTP GET uses exactly the
external wire names `lat`, `lon`, `slope`, `azi`, `tracking`, `panel_out`,
`panel_qty`, `inv_cap`, plus `apikey` added from the environment; the
tracking mode is serialized as its integer code, which lies in 0–3; and the
internal names `latitude` and `azimuth` never appear as keys. -/
theorem c9_wire_names (p : CBaseSystemParams) (api_key : String) :
    (collect_data_params p api_key).map Prod.fst =
      ["lat", "lon", "slope", "azi", "tracking", "panel_out", "panel_qty", "inv_cap",
       "apikey"] ∧
    (collect_data_params p api_key).lookup "tracking" =
      some (ParamValue.int (p.tracking.toNat : Int)) ∧
    p.tracking.toNat ≤ 3 ∧
    "latitude" ∉ (collect_data_params p api_key).map Prod.fst ∧
    "azimuth" ∉ (collect_data_params p api_key).map Prod.fst := by
  refine ⟨by simp [collect_data_params, CBaseSystemParams.model_dump_by_alias], ?_, ?_, ?_, ?_⟩
  · simp [collect_data_params, CBaseSystemParams.model_dump_by_alias, List.lookup]
  · cases htr : p.tracking <;> simp [CBaseTrackingParam.toNat]
  · simp [collect_data_params, CBaseSystemParams.model_dump_by_alias]
  · simp [collect_data_params, CBaseSystemParams.model_dump_by_alias]

/-- C8 (amended): when a non-empty CSV file path is supplied on the command
line, the program reads exactly that file, prints the Python list
representation of the points' individual JSON serializations to standard
output and exits: it performs no HTTP request and no database write, never
reads the configuration file's contents, and the dry-run flag does not
affect the behaviour. -/
theorem c8_file_mode (args : AppArgs) (readFile : String → String) (runTrace : List Effect)
    (path : String) (ps : List InfluxDBPoint)
    (hpath : args.csv_file = some path) (hne : path.isEmpty = false)
    (hps : csv_to_influxdb_points (readFile path) = some ps) :
    main_trace args readFile runTrace =
      [Effect.fileRead path,
       Effect.stdoutPrint (pyListRepr (ps.map InfluxDBPoint.model_dump_json))] ∧
    (∀ qp, Effect.httpGet qp ∉ main_trace args readFile runTrace) ∧
    Effect.dbWrite ∉ main_trace args readFile runTrace ∧
    (args.config_file ≠ path →
      Effect.fileRead args.config_file ∉ main_trace args readFile runTrace) ∧
    (∀ b, main_trace { args with dry_run := b } readFile runTrace =
      main_trace args readFile runTrace) := by
  have hmain : main_trace args readFile runTrace =
      [Effect.fileRead path,
       Effect.stdoutPrint (pyListRepr (ps.map InfluxDBPoint.model_dump_json))] := by
    simp [main_trace, hpath, hne, hps]
  refine ⟨hmain, ?_, ?_, ?_, ?_⟩
  · intro qp; rw [hmain]; simp
  · rw [hmain]; simp
  · intro hne2; rw [hmain]; simp [hne2]
  · intro b; simp [main_trace, hpath, hne, hps]

/-- The command-line arguments of a file-inspection run. -/
def exArgs : AppArgs :=
  { config_file := "config.yaml", csv_file := some "data.csv", dry_run := false }

/-- A file system giving every path the one-row CSV payload. -/
def exRead : String → String := fun _ => exCsv

/-- Witness for C8 on the one-row CSV file. -/
theorem c8_witness :
    (exArgs.csv_file = some "data.csv" ∧ "data.csv".isEmpty = false ∧
      csv_to_influxdb_points (exRead "data.csv") = some exPoints) ∧
    main_trace exArgs exRead [] =
      [Effect.fileRead "data.csv",
       Effect.stdoutPrint (pyListRepr (exPoints.map InfluxDBPoint.model_dump_json))] :=
  ⟨⟨rfl, rfl, by decide⟩,
   (c8_file_mode exArgs exRead [] "data.csv" exPoints rfl rfl (by decide)).1⟩

/-- C8 counterexample: on a concrete one-row CSV the text printed to standard
output is the Python repr of a list of JSON strings, which differs from the
single JSON array of point objects the claim describes. -/
theorem c8_counterexample :
    main_trace exArgs exRead [] =
      [Effect.fileRead "data.csv",
       Effect.stdoutPrint (pyListRepr (exPoints.map InfluxDBPoint.model_dump_json))] ∧
    pyListRepr (exPoints.map InfluxDBPoint.model_dump_json) ≠ jsonArrayOfPoints exPoints := by
  exact ⟨by decide, by decide⟩
